import Mathlib

/-!
Shallow embedding of `src/interface.py` (hdfm command-line front end):
the argument validator (`UserInterface`), the command builder (`NRSC5`),
and the module entry point.  Numeric strings are parsed by models of the
Python built-ins `int()` and `float()`; the filesystem test
`os.path.isdir` is a Boolean-valued parameter; printed diagnostics are
collected in an output list.
-/

namespace HDFM

/-- Result of Python `float()`: a finite value `mant / 10 ^ exp` (read
exactly from the decimal literal), a signed infinity, or nan.  The
exact-decimal reading idealises IEEE rounding, which no bounded decimal
the program compares against (88, 108) is close enough to distinguish
for the inputs considered here. -/
inductive PyFloat where
  | num (mant : Int) (exp : Nat)
  | inf (pos : Bool)
  | nan
deriving DecidableEq

/-- Python exceptions that the scan in `process` can raise. -/
inductive PyErr where
  | keyError (key : String)
  | indexError
deriving DecidableEq

/-- Outcome of `process`: a returned exit code or a raised exception. -/
inductive PResult where
  | code (rc : Int)
  | exn (e : PyErr)
deriving DecidableEq

/-- ASCII decimal digit test. -/
def isDigit (c : Char) : Bool := '0' ≤ c && c ≤ '9'

/-- Value of a digit string (most significant first). -/
def digitsToNat (l : List Char) : Nat :=
  l.foldl (fun a c => a * 10 + (c.toNat - 48)) 0

/-- Model of Python `int(string)`: an optional sign followed by one or
more ASCII digits.  (Surrounding whitespace and digit-group
underscores, which CPython also accepts, are not modelled.) -/
def pyInt? (s : String) : Option Int :=
  let p : Int × List Char :=
    match s.data with
    | '+' :: r => (1, r)
    | '-' :: r => (-1, r)
    | r => (1, r)
  if p.2 ≠ [] ∧ p.2.all isDigit then some (p.1 * digitsToNat p.2) else none

/-- Mantissa of a float literal: digits with an optional decimal point,
at least one digit overall (`"95.5"`, `"5."`, `".5"`).  Returns the
digit value and the number of fraction digits. -/
def parseMant (l : List Char) : Option (Nat × Nat) :=
  let ip := l.takeWhile (fun c => c ≠ '.')
  match l.dropWhile (fun c => c ≠ '.') with
  | [] => if ip ≠ [] ∧ ip.all isDigit then some (digitsToNat ip, 0) else none
  | _ :: fp =>
      if (ip ++ fp) ≠ [] ∧ ip.all isDigit ∧ fp.all isDigit then
        some (digitsToNat (ip ++ fp), fp.length)
      else none

/-- Exponent part of a float literal (after `e`/`E`): optional sign then
one or more digits. -/
def parseExpPart (l : List Char) : Option Int :=
  let p : Int × List Char :=
    match l with
    | '+' :: r => (1, r)
    | '-' :: r => (-1, r)
    | r => (1, r)
  if p.2 ≠ [] ∧ p.2.all isDigit then some (p.1 * digitsToNat p.2) else none

/-- Decimal (finite) float literal: mantissa with an optional
`e`/`E`-exponent.  Returns the digit value `m` and the net power `t`,
the value of the literal being `m * 10 ^ t`. -/
def parseDecimal (l : List Char) : Option (Nat × Int) :=
  let m := l.takeWhile (fun c => c ≠ 'e' ∧ c ≠ 'E')
  match l.dropWhile (fun c => c ≠ 'e' ∧ c ≠ 'E') with
  | [] => (parseMant m).map (fun p => (p.1, -(p.2 : Int)))
  | _ :: ex =>
      match parseMant m, parseExpPart ex with
      | some p, some e => some (p.1, e - (p.2 : Int))
      | _, _ => none

/-- Model of Python `float(string)`: an optional sign followed by
`inf`/`infinity`/`nan` (case-insensitive) or a decimal literal.
(Surrounding whitespace and underscores are not modelled.) -/
def pyFloat? (s : String) : Option PyFloat :=
  let p : Bool × List Char :=
    match s.data with
    | '+' :: r => (true, r)
    | '-' :: r => (false, r)
    | r => (true, r)
  let lower := p.2.map Char.toLower
  if lower = "inf".data ∨ lower = "infinity".data then some (.inf p.1)
  else if lower = "nan".data then some .nan
  else
    match parseDecimal p.2 with
    | some mt =>
        let sm : Int := if p.1 then (mt.1 : Int) else -(mt.1 : Int)
        if 0 ≤ mt.2 then some (.num (sm * 10 ^ mt.2.toNat) 0)
        else some (.num sm (-mt.2).toNat)
    | none => none

/-- Python `<` on float values: nan compares false against everything;
-inf below every finite value, +inf above. -/
def pyLt : PyFloat → PyFloat → Bool
  | .nan, _ => false
  | _, .nan => false
  | .num a ae, .num b be => decide (a * (10 : Int) ^ be < b * (10 : Int) ^ ae)
  | .inf false, .inf false => false
  | .inf false, _ => true
  | _, .inf false => false
  | .inf true, .inf true => false
  | _, .inf true => true
  | .inf true, _ => false

/-- Left-pad a digit string with zeros to width `k`. -/
def padZeros (s : String) (k : Nat) : String :=
  String.mk (List.replicate (k - s.length) '0') ++ s

/-- Drop trailing decimal zeros: `955/10^1` stays, `950/10^1` becomes
`95/10^0`, matching the shortest form printed by Python str(). -/
def stripZeros : Int → Nat → Int × Nat
  | m, 0 => (m, 0)
  | m, e + 1 => if m % 10 = 0 then stripZeros (m / 10) e else (m, e + 1)

/-- Model of Python `str()` on a float value: finite values in plain
positional notation with at least one fractional digit (`"95.5"`,
`"95.0"`); `"nan"`, `"inf"`, `"-inf"` for the special values.
(The switch of CPython to scientific form for very large or small
magnitudes is outside the range this program works with.) -/
def pyFloatStr : PyFloat → String
  | .nan => "nan"
  | .inf true => "inf"
  | .inf false => "-inf"
  | .num m e =>
      let p := stripZeros m e
      let sgn := if p.1 < 0 then "-" else ""
      let a := p.1.natAbs
      sgn ++ toString (a / 10 ^ p.2) ++ "." ++
        (if p.2 = 0 then "0" else padZeros (toString (a % 10 ^ p.2)) p.2)

/-- Python `str()` applied to the `freq` attribute, which is either
`None` or a float. -/
def freqStr : Option PyFloat → String
  | none => "None"
  | some f => pyFloatStr f

/-- Modelled from the spec: the fixed default dump-directory path
(`from . import DUMP`); the package `__init__` is not among the
sources, so the concrete path is kept symbolic. -/
def DUMP : String := "<default-dump-dir>"

/-- Modelled from the spec: the fixed default saves-directory path
(`from . import SAVES`); the package `__init__` is not among the
sources, so the concrete path is kept symbolic. -/
def SAVES : String := "<default-saves-dir>"

/-- The help message printed for `-h`/`--help` (source lines 11-21). -/
def HELP : String :=
  "Usage:  [OPTIONS]  frequency\n\nOption        Meaning\n -h, --help    Show this message\n -c <channel>  HDFM channel, for stations with subchannels (default = 1)\n -p <ppm>      PPM error correction (default = 0)\n -s <dir>      Directory to do_save weather and traffic images to (default = none)\n -l <1-3>      Log level output from nrsc5 (default = 3, only debug info)\n -a <null>     Display album/station art\n"

/-- The argument fields of the `NRSC5` object (source lines 25-35). -/
structure NRSC5 where
  channel : Int
  ppm : Int
  log : Int
  freq : Option PyFloat
  dump_dir : String
deriving DecidableEq

/-- `NRSC5.__init__`: channel 0, ppm 0, log 3, freq None, dump dir. -/
def initNRSC5 : NRSC5 :=
  { channel := 0, ppm := 0, log := 3, freq := none, dump_dir := DUMP }

/-- `NRSC5.format_cmd` (source lines 38-49): the fixed-order argv for
the external binary. -/
def format_cmd (n : NRSC5) : List String :=
  ["nrsc5", "-l", toString n.log, "-p", toString n.ppm, "--dump-aas-files",
   n.dump_dir, freqStr n.freq, toString n.channel]

/-- The state of the `UserInterface` object: the managed `NRSC5` object, the
album-art flag, the save directory and flag (source lines 65-80), plus
the list of lines printed so far. -/
structure UserInterface where
  nrsc5 : NRSC5
  art : Bool
  save_dir : String
  do_save : Bool
  output : List String
deriving DecidableEq

/-- `UserInterface.__init__` around a fresh `NRSC5`. -/
def initUI : UserInterface :=
  { nrsc5 := initNRSC5, art := false, save_dir := SAVES, do_save := false,
    output := [] }

namespace UserInterface

/-- Halt program status code (source line 61). -/
def HALT : Int := 1

/-- Success code (source line 63). -/
def SUCCESS : Int := 0

/-- Record one printed line. -/
def print (s : UserInterface) (m : String) : UserInterface :=
  { s with output := s.output ++ [m] }

/-- `repr_int` (source lines 88-94): whether `int()` accepts the string. -/
def repr_int (v : String) : Bool := (pyInt? v).isSome

/-- `repr_float` (source lines 97-103): whether `float()` accepts the
string. -/
def repr_float (v : String) : Bool := (pyFloat? v).isSome

/-- `UserInterface.channel` handler (source lines 106-117); the
`repr_int` guard followed by `int(arg)` is fused into one match on
`pyInt?`. -/
def channel (s : UserInterface) (arg : String) : Bool × UserInterface :=
  match pyInt? arg with
  | none => (false, s.print "Error: Invalid channel (0 - 3)")
  | some c =>
      if c < 0 ∨ c > 3 then (false, s.print "Error: Invalid channel (0 - 3)")
      else (true, { s with nrsc5 := { s.nrsc5 with channel := c } })

/-- `UserInterface.frequency` handler (source lines 120-130); the
`repr_float` guard followed by `float(arg)` is fused into one match on
`pyFloat?`. -/
def frequency (s : UserInterface) (arg : String) : Bool × UserInterface :=
  match pyFloat? arg with
  | none => (false, s.print "Error: Invalid frequency")
  | some f =>
      if pyLt f (.num 88 0) || pyLt (.num 108 0) f then
        (false, s.print "Error: Frequency out of range (88.0 - 108.0)")
      else (true, { s with nrsc5 := { s.nrsc5 with freq := some f } })

/-- `UserInterface.ppm` handler (source lines 133-139). -/
def ppm (s : UserInterface) (arg : String) : Bool × UserInterface :=
  match pyInt? arg with
  | none => (false, s.print "Error: Invalid PPM argument")
  | some v => (true, { s with nrsc5 := { s.nrsc5 with ppm := v } })

/-- `UserInterface.log` handler (source lines 142-152). -/
def log (s : UserInterface) (arg : String) : Bool × UserInterface :=
  match pyInt? arg with
  | none => (false, s.print "Error: Invalid log level (1 - 3)")
  | some v =>
      if v < 1 ∨ v > 3 then (false, s.print "Error: Invalid log level (1 - 3)")
      else (true, { s with nrsc5 := { s.nrsc5 with log := v } })

/-- `UserInterface.save_dir_set` handler (source lines 155-162);
`os.path.isdir` is the parameter `isdir`. -/
def save_dir_set (isdir : String → Bool) (s : UserInterface) (arg : String) :
    Bool × UserInterface :=
  if !isdir arg then (false, s.print "Error: Invalid directory")
  else (true, { s with save_dir := arg, do_save := true })

/-- `UserInterface.art_set` handler (source lines 165-168). -/
def art_set (s : UserInterface) (_arg : String) : Bool × UserInterface :=
  (true, { s with art := true })

/-- The `option_map` dictionary (source lines 69-75): flag string to
handler, `none` for a key that would raise `KeyError`. -/
def option_map (isdir : String → Bool) (flag : String) :
    Option (UserInterface → String → Bool × UserInterface) :=
  match flag with
  | "-c" => some channel
  | "-p" => some ppm
  | "-l" => some log
  | "-a" => some art_set
  | "-s" => some (save_dir_set isdir)
  | _ => none

/-- The flag-scanning loop of `process` (source lines 185-194), over
the tokens still to visit: `args[i][0]` on an empty token raises
`IndexError`; a token starting with `-` that is not last (the Python
test `i < length - 1`, i.e. the remaining suffix is nonempty) is looked
up in `option_map` (raising `KeyError` when absent) and its handler
applied to the following token `args[i + 1]` (the head of the suffix); the
first handler failure returns `HALT`; a completed loop returns
`SUCCESS`. -/
def scan (isdir : String → Bool) :
    UserInterface → List String → PResult × UserInterface
  | s, [] => (.code SUCCESS, s)
  | s, tok :: rest =>
      match tok.data with
      | [] => (.exn .indexError, s)
      | c :: _ =>
          if c ≠ '-' then scan isdir s rest
          else
            match rest with
            | [] => (.code SUCCESS, s)
            | nxt :: _ =>
                match option_map isdir tok with
                | none => (.exn (.keyError tok), s)
                | some f =>
                    if (f s nxt).1 then scan isdir (f s nxt).2 rest
                    else (.code HALT, (f s nxt).2)

/-- `UserInterface.process` (source lines 171-194): help check, empty
argument check, frequency validation of the last token, then the flag
scan.  `args[-1]` on an empty list raises `IndexError`. -/
def process (isdir : String → Bool) (s : UserInterface) (args : List String) :
    PResult × UserInterface :=
  if args.contains "-h" || args.contains "--help" then
    (.code HALT, s.print HELP)
  else if args.length = 1 then
    (.code HALT, s.print "Error: No frequency specified")
  else
    match args.getLast? with
    | none => (.exn .indexError, s)
    | some last =>
        if (frequency s last).1 then scan isdir (frequency s last).2 args
        else (.code HALT, (frequency s last).2)

/-- Effect of one scan step on the token `tok` with remaining suffix
`rest`, when the loop neither returns nor raises there: the state the
loop continues with (`none` when the loop terminates at `tok`, whether
by `HALT`, `KeyError` or `IndexError`). -/
def stepTok (isdir : String → Bool) (s : UserInterface) (tok : String)
    (rest : List String) : Option UserInterface :=
  match tok.data with
  | [] => none
  | c :: _ =>
      if c ≠ '-' then some s
      else
        match rest with
        | [] => some s
        | nxt :: _ =>
            match option_map isdir tok with
            | none => none
            | some f => if (f s nxt).1 then some (f s nxt).2 else none

/-- State of the scan after its first `n` tokens, when it is still
running there (`none` once it has returned or raised). -/
def scanSteps (isdir : String → Bool) :
    UserInterface → List String → Nat → Option UserInterface
  | s, _, 0 => some s
  | _, [], _ + 1 => none
  | s, tok :: rest, n + 1 =>
      match stepTok isdir s tok rest with
      | none => none
      | some t => scanSteps isdir t rest n

end UserInterface

/-- The `__main__` block (source lines 197-219): builds the objects,
calls `process` on argv **discarding its return code**, then calls
`nrsc5.format_cmd()` and `nrsc5.start()`.  Result: the argv the
external binary is launched with, or `none` when `process` raised and
the program died before `start()`. -/
def mainStart (isdir : String → Bool) (argv : List String) :
    Option (List String) :=
  match UserInterface.process isdir initUI argv with
  | (.exn _, _) => none
  | (.code _, s) => some (format_cmd s.nrsc5)

/-- A filesystem on which no path is a directory (used for concrete
runs that never consult `-s`). -/
def noDirs : String → Bool := fun _ => false

end HDFM

namespace HDFM

open UserInterface

/-! ## Helper lemmas about the flag scan -/

/-- When the scan step at token `tok` continues with state `t`, scanning
`tok :: rest` is scanning `rest` on `t`. -/
theorem scan_step (isdir : String → Bool) (s t : UserInterface) (tok : String)
    (rest : List String) (h : stepTok isdir s tok rest = some t) :
    scan isdir s (tok :: rest) = scan isdir t rest := by
  simp only [scan]
  unfold stepTok at h
  cases hd : tok.data with
  | nil => simp only [hd] at h; exact Option.noConfusion h
  | cons c cs =>
    simp only [hd] at h ⊢
    by_cases hc : ¬ c = '-'
    · simp only [if_pos hc] at h ⊢
      injection h with h2
      rw [h2]
    · simp only [if_neg hc] at h ⊢
      cases rest with
      | nil =>
        injection h with h2
        rw [h2, scan]
      | cons nxt rest2 =>
        cases hm : option_map isdir tok with
        | none => simp only [hm] at h; exact Option.noConfusion h
        | some f =>
          simp only [hm] at h ⊢
          by_cases hr : (f s nxt).1 = true
          · simp only [if_pos hr] at h ⊢
            injection h with h2
            rw [h2]
          · simp only [if_neg hr] at h; exact Option.noConfusion h

/-- When the scan is still running after its first `n` tokens with
state `t`, the whole scan is the scan of the remaining suffix on `t`. -/
theorem scan_of_scanSteps (isdir : String → Bool) :
    ∀ (n : Nat) (s t : UserInterface) (l : List String),
      scanSteps isdir s l n = some t →
      scan isdir s l = scan isdir t (l.drop n) := by
  intro n
  induction n with
  | zero =>
    intro s t l h
    rw [scanSteps] at h
    injection h with h2
    rw [h2, List.drop_zero]
  | succ m ih =>
    intro s t l h
    cases l with
    | nil => rw [scanSteps] at h; exact Option.noConfusion h
    | cons tok rest =>
      rw [scanSteps] at h
      cases hst : stepTok isdir s tok rest with
      | none => rw [hst] at h; exact Option.noConfusion h
      | some u =>
        rw [hst] at h
        rw [List.drop_succ_cons]
        exact (scan_step isdir s u tok rest hst).trans (ih u t rest h)

/-- A scan that is still running after all of its tokens finishes with
`SUCCESS` and its final state. -/
theorem scan_done (isdir : String → Bool) (s t : UserInterface)
    (l : List String) (h : scanSteps isdir s l l.length = some t) :
    scan isdir s l = (.code SUCCESS, t) := by
  have h2 := scan_of_scanSteps isdir l.length s t l h
  rw [List.drop_length] at h2
  rw [h2, scan]

/-- When no help flag is present, more than one token was given, and the
last token passes frequency validation, `process` is the flag scan of
all tokens on the frequency-updated state. -/
theorem process_scan (isdir : String → Bool) (s : UserInterface)
    (args : List String) (last : String)
    (hh : args.contains "-h" = false) (hH : args.contains "--help" = false)
    (hlen : ¬ args.length = 1) (hlast : args.getLast? = some last)
    (hfreq : (frequency s last).1 = true) :
    process isdir s args = scan isdir (frequency s last).2 args := by
  rw [process]
  rw [if_neg (by rw [hh, hH]; simp)]
  rw [if_neg hlen]
  simp only [hlast]
  rw [if_pos hfreq]

end HDFM
namespace HDFM

open UserInterface

/-- C1: the claimed invariant "frequency is always set before launch"
fails: on argv `["prog"]`, `process` returns HALT with `freq` still
`None`, yet the entry point ignores the code and launches nrsc5 with
the string "None" in the frequency slot of its argv. -/
theorem c1_launch_with_unset_frequency :
    process noDirs initUI ["prog"] =
      (.code HALT, initUI.print "Error: No frequency specified") ∧
    mainStart noDirs ["prog"] =
      some ["nrsc5", "-l", "3", "-p", "0", "--dump-aas-files", DUMP,
            "None", "0"] := by
  constructor
  · rfl
  · rfl

/-- C4: `format_cmd` always produces the fixed nine-token vector, and on
tokens `["prog", "-c", "2", "-p", "5", "95.5"]` the run yields
channel 2, ppm 5, log 3, frequency 95.5, exit SUCCESS, and the claimed
command vector. -/
theorem c4_format_cmd :
    (∀ n : NRSC5, format_cmd n =
      ["nrsc5", "-l", toString n.log, "-p", toString n.ppm,
       "--dump-aas-files", n.dump_dir, freqStr n.freq, toString n.channel]) ∧
    process noDirs initUI ["prog", "-c", "2", "-p", "5", "95.5"] =
      (.code SUCCESS,
        { initUI with nrsc5 := { channel := 2, ppm := 5, log := 3,
                                 freq := some (.num 955 1),
                                 dump_dir := DUMP } }) ∧
    format_cmd { channel := 2, ppm := 5, log := 3,
                 freq := some (.num 955 1), dump_dir := DUMP } =
      ["nrsc5", "-l", "3", "-p", "5", "--dump-aas-files", DUMP,
       "95.5", "2"] := by
  refine ⟨fun n => rfl, by decide, by decide⟩

/-- C7: the `-c` handler succeeds exactly on integer strings in [0, 3];
on success it stores the channel, on failure it prints the channel
error and reports failure. -/
theorem c7_channel_validation (s : UserInterface) (arg : String) :
    ((channel s arg).1 = true ↔
      ∃ c : Int, pyInt? arg = some c ∧ 0 ≤ c ∧ c ≤ 3) ∧
    (∀ c : Int, pyInt? arg = some c → 0 ≤ c → c ≤ 3 →
      channel s arg = (true, { s with nrsc5 := { s.nrsc5 with channel := c } })) ∧
    ((channel s arg).1 = false →
      (channel s arg).2 = s.print "Error: Invalid channel (0 - 3)") := by
  cases hp : pyInt? arg with
  | none => simp [channel, hp]
  | some c =>
    by_cases hc : c < 0 ∨ c > 3
    · simp only [channel, hp, if_pos hc]
      refine ⟨?_, ?_, fun _ => trivial⟩
      · simp only [Bool.false_eq_true, false_iff, not_exists]
        rintro c' ⟨hc', h0, h3⟩
        injection hc' with e
        omega
      · rintro c' hc' h0 h3
        injection hc' with e
        omega
    · simp only [channel, hp, if_neg hc]
      refine ⟨?_, ?_, ?_⟩
      · simp only [true_iff]
        exact ⟨c, rfl, by omega, by omega⟩
      · rintro c' hc' h0 h3
        injection hc' with e
        rw [e]
      · intro h
        simp at h

/-- C7 witness: the hypotheses of `c7_channel_validation` hold at a
concrete input. -/
theorem c7_channel_validation_witness :
    channel initUI "2" =
      (true, { initUI with nrsc5 := { initUI.nrsc5 with channel := 2 } }) ∧
    (channel initUI "7").2 = initUI.print "Error: Invalid channel (0 - 3)" :=
  ⟨(c7_channel_validation initUI "2").2.1 2 (by decide) (by decide) (by decide),
   (c7_channel_validation initUI "7").2.2 (by decide)⟩

/-- C8: the `-s` handler succeeds exactly when the argument names an
existing directory; on success it stores the directory verbatim and
sets `do_save`; on failure it prints the directory error and leaves
both fields unchanged. -/
theorem c8_save_dir_validation (isdir : String → Bool) (s : UserInterface)
    (arg : String) :
    ((save_dir_set isdir s arg).1 = true ↔ isdir arg = true) ∧
    (isdir arg = true →
      save_dir_set isdir s arg =
        (true, { s with save_dir := arg, do_save := true })) ∧
    (isdir arg = false →
      save_dir_set isdir s arg = (false, s.print "Error: Invalid directory") ∧
      (save_dir_set isdir s arg).2.save_dir = s.save_dir ∧
      (save_dir_set isdir s arg).2.do_save = s.do_save) := by
  cases hd : isdir arg <;>
    simp [save_dir_set, hd, UserInterface.print]

/-- C8 witness: the hypotheses of `c8_save_dir_validation` hold at
concrete inputs. -/
theorem c8_save_dir_validation_witness :
    save_dir_set (fun p => p == "/music") initUI "/music" =
      (true, { initUI with save_dir := "/music", do_save := true }) ∧
    save_dir_set (fun p => p == "/music") initUI "/nope" =
      (false, initUI.print "Error: Invalid directory") :=
  ⟨(c8_save_dir_validation (fun p => p == "/music") initUI "/music").2.1 (by decide),
   ((c8_save_dir_validation (fun p => p == "/music") initUI "/nope").2.2 (by decide)).1⟩

end HDFM
namespace HDFM

open UserInterface

/-- Unfolding `scanSteps` at the far end: one more step applies
`stepTok` to the head of the current suffix. -/
theorem scanSteps_succ (isdir : String → Bool) :
    ∀ (n : Nat) (s : UserInterface) (l : List String),
      scanSteps isdir s l (n + 1) =
        (scanSteps isdir s l n).bind (fun t =>
          match l.drop n with
          | [] => none
          | tok :: rest => stepTok isdir t tok rest) := by
  intro n
  induction n with
  | zero =>
    intro s l
    cases l with
    | nil => rfl
    | cons tok rest =>
      simp only [scanSteps, List.drop_zero, Option.some_bind]
      cases hst : stepTok isdir s tok rest with
      | none => rfl
      | some u => rfl
  | succ m ih =>
    intro s l
    cases l with
    | nil => rfl
    | cons tok rest =>
      simp only [scanSteps, List.drop_succ_cons]
      cases hst : stepTok isdir s tok rest with
      | none => rfl
      | some u => exact ih u rest

/-- C2 counterexample: on tokens `["prog", "-p", "-5", "95.5"]` the scan
revisits the handler argument "-5", looks it up as a flag and raises
`KeyError`; `process` does not return SUCCESS. -/
theorem c2_counterexample_negative_arg :
    (process noDirs initUI ["prog", "-p", "-5", "95.5"]).1 ≠ .code SUCCESS ∧
    process noDirs initUI ["prog", "-p", "-5", "95.5"] =
      (.exn (.keyError "-5"),
        { initUI with
          nrsc5 := { initNRSC5 with ppm := -5, freq := some (.num 955 1) } }) := by
  refine ⟨by decide, by decide⟩

/-- C2 amended: the `-p` handler itself does accept "-5" and stores
ppm = -5, but the scan advances one token at a time and revisits "-5",
which begins with '-' and is not in the option map, so
`process(["prog", "-p", "-5", "95.5"])` raises `KeyError "-5"` (with
ppm already set to -5) instead of returning SUCCESS. -/
theorem c2_negative_arg_is_rescanned :
    (∀ s : UserInterface, ppm s "-5" =
      (true, { s with nrsc5 := { s.nrsc5 with ppm := -5 } })) ∧
    option_map noDirs "-5" = none ∧
    process noDirs initUI ["prog", "-p", "-5", "95.5"] =
      (.exn (.keyError "-5"),
        { initUI with
          nrsc5 := { initNRSC5 with ppm := -5, freq := some (.num 955 1) } }) := by
  refine ⟨fun s => rfl, rfl, by decide⟩

/-- C5 counterexample: the token "nan" does not parse as a finite real
number at all (let alone one in [88, 108]), yet frequency validation
accepts it, and a full run with last token "nan" returns SUCCESS with
freq = nan. -/
theorem c5_counterexample_nan :
    (frequency initUI "nan").1 = true ∧
    (¬ ∃ (m : Int) (e : Nat), pyFloat? "nan" = some (.num m e)) ∧
    process noDirs initUI ["prog", "nan"] =
      (.code SUCCESS,
        { initUI with nrsc5 := { initNRSC5 with freq := some .nan } }) := by
  refine ⟨by decide, ?_, by decide⟩
  rintro ⟨m, e, hm⟩
  rw [show pyFloat? "nan" = some PyFloat.nan from by decide] at hm
  injection hm with hm2
  exact PyFloat.noConfusion hm2

/-- C5 amended: frequency validation succeeds iff the token parses as a
finite number f with 88 ≤ f ≤ 108, or parses as nan (whose comparisons
are all false, so the range check passes); a non-parsing token fails
with "Invalid frequency", a parsing but rejected value (finite
out-of-range or an infinity) fails with the out-of-range message, and
an accepted value is stored in freq. -/
theorem c5_frequency_validation (s : UserInterface) (arg : String) :
    ((frequency s arg).1 = true ↔
      ((∃ (m : Int) (e : Nat), pyFloat? arg = some (.num m e) ∧
          (88 : ℚ) ≤ (m : ℚ) / 10 ^ e ∧ (m : ℚ) / 10 ^ e ≤ 108) ∨
        pyFloat? arg = some .nan)) ∧
    (pyFloat? arg = none →
      frequency s arg = (false, s.print "Error: Invalid frequency")) ∧
    (∀ f, pyFloat? arg = some f → (frequency s arg).1 = false →
      frequency s arg =
        (false, s.print "Error: Frequency out of range (88.0 - 108.0)")) ∧
    (∀ f, pyFloat? arg = some f → (frequency s arg).1 = true →
      frequency s arg =
        (true, { s with nrsc5 := { s.nrsc5 with freq := some f } })) := by
  cases hp : pyFloat? arg with
  | none => simp [frequency, hp]
  | some f =>
    cases f with
    | num m e =>
      have hpe : (0 : ℚ) < 10 ^ e := by positivity
      have hiff : (pyLt (.num m e) (.num 88 0) ||
          pyLt (.num 108 0) (.num m e)) = true ↔
          (m < 88 * 10 ^ e ∨ 108 * 10 ^ e < m) := by
        simp only [pyLt, Bool.or_eq_true, decide_eq_true_eq, pow_zero, mul_one]
      have hrange : ¬ (m < 88 * 10 ^ e ∨ 108 * 10 ^ e < m) ↔
          ((88 : ℚ) ≤ (m : ℚ) / 10 ^ e ∧ (m : ℚ) / 10 ^ e ≤ 108) := by
        rw [not_or, not_lt, not_lt, le_div_iff₀ hpe, div_le_iff₀ hpe]
        constructor
        · rintro ⟨h88, h108⟩
          exact ⟨by exact_mod_cast h88, by exact_mod_cast h108⟩
        · rintro ⟨h88, h108⟩
          exact ⟨by exact_mod_cast h88, by exact_mod_cast h108⟩
      by_cases hb : (pyLt (.num m e) (.num 88 0) ||
          pyLt (.num 108 0) (.num m e)) = true
      · refine ⟨?_, ?_, ?_, ?_⟩
        · simp only [frequency, hp, if_pos hb, Bool.false_eq_true, false_iff]
          rintro (⟨m2, e2, hm2, hq⟩ | hnan)
          · injection hm2 with hm3
            injection hm3 with h4 h5
            subst h4
            subst h5
            exact (hrange.2 hq) (hiff.1 hb)
          · injection hnan with h2
            exact PyFloat.noConfusion h2
        · intro h2
          exact Option.noConfusion h2
        · intro f2 _ _
          simp only [frequency, hp, if_pos hb]
        · intro f2 _ h2
          simp only [frequency, hp, if_pos hb, Bool.false_eq_true] at h2
      · refine ⟨?_, ?_, ?_, ?_⟩
        · simp only [frequency, hp, if_neg hb, true_iff]
          refine Or.inl ⟨m, e, rfl, ?_⟩
          exact hrange.1 (fun hcon => hb (hiff.2 hcon))
        · intro h2
          exact Option.noConfusion h2
        · intro f2 _ h2
          simp only [frequency, hp, if_neg hb, Bool.true_eq_false] at h2
        · intro f2 hf2 _
          injection hf2 with hf3
          rw [← hf3]
          simp only [frequency, hp, if_neg hb]
    | inf b =>
      have hb : (pyLt (.inf b) (.num 88 0) || pyLt (.num 108 0) (.inf b)) = true := by
        cases b <;> rfl
      refine ⟨?_, ?_, ?_, ?_⟩
      · simp only [frequency, hp, if_pos hb, Bool.false_eq_true, false_iff]
        rintro (⟨m2, e2, hm2, hq⟩ | hnan)
        · injection hm2 with hm3
          exact PyFloat.noConfusion hm3
        · injection hnan with h2
          exact PyFloat.noConfusion h2
      · intro h2
        exact Option.noConfusion h2
      · intro f2 _ _
        simp only [frequency, hp, if_pos hb]
      · intro f2 _ h2
        simp only [frequency, hp, if_pos hb, Bool.false_eq_true] at h2
    | nan =>
      have hb : (pyLt PyFloat.nan (.num 88 0) ||
          pyLt (.num 108 0) PyFloat.nan) = false := rfl
      refine ⟨?_, ?_, ?_, ?_⟩
      · simp only [frequency, hp, hb, Bool.false_eq_true, if_false, true_iff]
        exact Or.inr trivial
      · intro h2
        exact Option.noConfusion h2
      · intro f2 _ h2
        simp only [frequency, hp, hb, Bool.false_eq_true, if_false,
          Bool.true_eq_false] at h2
      · intro f2 hf2 _
        injection hf2 with hf3
        rw [← hf3]
        simp only [frequency, hp, hb, Bool.false_eq_true, if_false]

/-- C5 witness: the hypotheses of `c5_frequency_validation` hold at
concrete inputs. -/
theorem c5_frequency_validation_witness :
    frequency initUI "abc" = (false, initUI.print "Error: Invalid frequency") ∧
    frequency initUI "108.1" =
      (false, initUI.print "Error: Frequency out of range (88.0 - 108.0)") ∧
    frequency initUI "95.5" =
      (true, { initUI with
               nrsc5 := { initUI.nrsc5 with freq := some (.num 955 1) } }) :=
  ⟨(c5_frequency_validation initUI "abc").2.1 (by decide),
   (c5_frequency_validation initUI "108.1").2.2.1 (.num 1081 1) (by decide) (by decide),
   (c5_frequency_validation initUI "95.5").2.2.2 (.num 955 1) (by decide) (by decide)⟩

/-- C9 counterexample: `-a` followed by the flag-shaped token "-x" does
set art, but the follower is then rescanned as a token of its own and
`process` raises `KeyError "-x"` — the run does error. -/
theorem c9_counterexample_flag_follower :
    (process noDirs initUI ["prog", "-a", "-x", "95.5"]).1 ≠ .code SUCCESS ∧
    process noDirs initUI ["prog", "-a", "-x", "95.5"] =
      (.exn (.keyError "-x"),
        { initUI with
          art := true, nrsc5 := { initNRSC5 with freq := some (.num 955 1) } }) := by
  refine ⟨by decide, by decide⟩

/-- C9 amended: the `-a` handler always succeeds and sets art regardless
of its argument, and an `-a` step never terminates the scan; but a
flag-shaped follower is itself rescanned as a token of its own and may
fail or raise, so the run as a whole can still error. -/
theorem c9_art_always_set :
    (∀ (s : UserInterface) (a : String),
      art_set s a = (true, { s with art := true })) ∧
    (∀ (isdir : String → Bool) (s t : UserInterface) (args : List String)
       (n : Nat) (nxt : String) (rest : List String),
      scanSteps isdir s args n = some t →
      args.drop n = "-a" :: nxt :: rest →
      scanSteps isdir s args (n + 1) = some { t with art := true }) := by
  refine ⟨fun s a => rfl, ?_⟩
  intro isdir s t args n nxt rest hsteps hdrop
  rw [scanSteps_succ isdir n s args, hsteps, Option.some_bind, hdrop]
  rfl

/-- C9 witness: the hypotheses of `c9_art_always_set` hold at a
concrete input. -/
theorem c9_art_always_set_witness :
    scanSteps noDirs initUI ["prog", "-a", "x", "95.5"] 1 = some initUI ∧
    scanSteps noDirs initUI ["prog", "-a", "x", "95.5"] 2 =
      some { initUI with art := true } :=
  ⟨by decide,
   c9_art_always_set.2 noDirs initUI initUI ["prog", "-a", "x", "95.5"] 1 "x"
     ["95.5"] (by decide) (by decide)⟩

end HDFM
namespace HDFM

open UserInterface

/-- A scan that reaches a flag-shaped token absent from the option map
(with a token after it) raises `KeyError` there. -/
theorem scan_keyError (isdir : String → Bool) (s : UserInterface)
    (tok nxt : String) (rest : List String)
    (hhead : tok.data.head? = some '-')
    (hmap : option_map isdir tok = none) :
    scan isdir s (tok :: nxt :: rest) = (.exn (.keyError tok), s) := by
  cases hd : tok.data with
  | nil => rw [hd] at hhead; simp at hhead
  | cons c cs =>
    rw [hd] at hhead
    simp only [List.head?_cons] at hhead
    injection hhead with hc
    subst hc
    simp only [scan, hd]
    rw [if_neg (by simp)]
    simp only [hmap]

/-- A scan that reaches a mapped flag (with a token after it) whose
handler fails returns `HALT` with the state left by the handler. -/
theorem scan_handler_fail (isdir : String → Bool) (s : UserInterface)
    (tok nxt : String) (rest : List String)
    (f : UserInterface → String → Bool × UserInterface)
    (hhead : tok.data.head? = some '-')
    (hmap : option_map isdir tok = some f)
    (hfail : (f s nxt).1 = false) :
    scan isdir s (tok :: nxt :: rest) = (.code HALT, (f s nxt).2) := by
  cases hd : tok.data with
  | nil => rw [hd] at hhead; simp at hhead
  | cons c cs =>
    rw [hd] at hhead
    simp only [List.head?_cons] at hhead
    injection hhead with hc
    subst hc
    simp only [scan, hd]
    rw [if_neg (by simp)]
    simp only [hmap, hfail, Bool.false_eq_true, if_false]

/-- C3: the fixed validation order of `process`: a help flag anywhere
prints the usage text and returns HALT before anything else; otherwise
a lone program name prints the missing-frequency error and returns
HALT; otherwise the last token is validated as the frequency, failure
returning HALT at once with no flag scanned; otherwise the tokens are
scanned left to right, the first handler failure returning HALT with
the state left by that handler, and a scan that runs through every token
returning SUCCESS. -/
theorem c3_process_validation_order (isdir : String → Bool)
    (s : UserInterface) (args : List String) :
    ((args.contains "-h" = true ∨ args.contains "--help" = true) →
      process isdir s args = (.code HALT, s.print HELP)) ∧
    (args.contains "-h" = false → args.contains "--help" = false →
      args.length = 1 →
      process isdir s args =
        (.code HALT, s.print "Error: No frequency specified")) ∧
    (∀ last, args.contains "-h" = false → args.contains "--help" = false →
      ¬ args.length = 1 → args.getLast? = some last →
      (frequency s last).1 = false →
      process isdir s args = (.code HALT, (frequency s last).2)) ∧
    (∀ last, args.contains "-h" = false → args.contains "--help" = false →
      ¬ args.length = 1 → args.getLast? = some last →
      (frequency s last).1 = true →
      process isdir s args = scan isdir (frequency s last).2 args) ∧
    (∀ (t u : UserInterface) (n : Nat) (tok nxt : String) (rest : List String)
       (f : UserInterface → String → Bool × UserInterface),
      scanSteps isdir t args n = some u →
      args.drop n = tok :: nxt :: rest →
      tok.data.head? = some '-' →
      option_map isdir tok = some f →
      (f u nxt).1 = false →
      scan isdir t args = (.code HALT, (f u nxt).2)) ∧
    (∀ t u : UserInterface,
      scanSteps isdir t args args.length = some u →
      scan isdir t args = (.code SUCCESS, u)) := by
  refine ⟨?_, ?_, ?_, ?_, ?_, ?_⟩
  · intro h
    rw [process, if_pos (by rcases h with h2 | h2 <;> rw [h2] <;> simp)]
  · intro hh hH h1
    rw [process, if_neg (by rw [hh, hH]; simp), if_pos h1]
  · intro last hh hH hlen hlast hfreq
    rw [process, if_neg (by rw [hh, hH]; simp), if_neg hlen]
    simp only [hlast]
    rw [if_neg (by rw [hfreq]; simp)]
  · intro last hh hH hlen hlast hfreq
    exact process_scan isdir s args last hh hH hlen hlast hfreq
  · intro t u n tok nxt rest f hsteps hdrop hhead hmap hfail
    rw [scan_of_scanSteps isdir n t u args hsteps, hdrop]
    exact scan_handler_fail isdir u tok nxt rest f hhead hmap hfail
  · intro t u hsteps
    exact scan_done isdir t u args hsteps

/-- C3 witness: each stage of `c3_process_validation_order` holds at a
concrete input. -/
theorem c3_process_validation_order_witness :
    process noDirs initUI ["prog", "-h"] = (.code HALT, initUI.print HELP) ∧
    process noDirs initUI ["prog"] =
      (.code HALT, initUI.print "Error: No frequency specified") ∧
    process noDirs initUI ["prog", "108.1"] =
      (.code HALT, (frequency initUI "108.1").2) ∧
    process noDirs initUI ["prog", "95.5"] =
      scan noDirs (frequency initUI "95.5").2 ["prog", "95.5"] ∧
    scan noDirs (frequency initUI "95.5").2 ["prog", "-c", "9", "95.5"] =
      (.code HALT, (channel (frequency initUI "95.5").2 "9").2) ∧
    scan noDirs (frequency initUI "95.5").2 ["prog", "95.5"] =
      (.code SUCCESS, (frequency initUI "95.5").2) :=
  ⟨(c3_process_validation_order noDirs initUI ["prog", "-h"]).1
     (Or.inl (by decide)),
   (c3_process_validation_order noDirs initUI ["prog"]).2.1
     (by decide) (by decide) (by decide),
   (c3_process_validation_order noDirs initUI ["prog", "108.1"]).2.2.1
     "108.1" (by decide) (by decide) (by decide) (by decide) (by decide),
   (c3_process_validation_order noDirs initUI ["prog", "95.5"]).2.2.2.1
     "95.5" (by decide) (by decide) (by decide) (by decide) (by decide),
   (c3_process_validation_order noDirs initUI ["prog", "-c", "9", "95.5"]).2.2.2.2.1
     (frequency initUI "95.5").2 (frequency initUI "95.5").2 1 "-c" "9"
     ["95.5"] channel (by decide) (by decide) (by decide) rfl (by decide),
   (c3_process_validation_order noDirs initUI ["prog", "95.5"]).2.2.2.2.2
     (frequency initUI "95.5").2 (frequency initUI "95.5").2 (by decide)⟩

/-- C6 counterexample: `["prog", "-c", "9", "-x", "y", "95.5"]` contains
the unknown non-final flag "-x", yet `process` returns the exit code
HALT (the earlier `-c` failure wins) instead of raising. -/
theorem c6_counterexample_earlier_failure :
    option_map noDirs "-x" = none ∧
    process noDirs initUI ["prog", "-c", "9", "-x", "y", "95.5"] =
      (.code HALT,
        { initUI with
          nrsc5 := { initNRSC5 with freq := some (.num 955 1) },
          output := ["Error: Invalid channel (0 - 3)"] }) := by
  refine ⟨rfl, by decide⟩

/-- C6 amended: when the flag scan actually reaches a non-final token
that begins with '-' and is not one of the five mapped flags — no
earlier token having ended the scan — `process` raises `KeyError` on
the dictionary lookup instead of returning an exit code. -/
theorem c6_unknown_flag_raises (isdir : String → Bool)
    (s t : UserInterface) (args : List String) (n : Nat)
    (last tok nxt : String) (rest : List String)
    (hh : args.contains "-h" = false) (hH : args.contains "--help" = false)
    (hlen : ¬ args.length = 1) (hlast : args.getLast? = some last)
    (hfreq : (frequency s last).1 = true)
    (hsteps : scanSteps isdir (frequency s last).2 args n = some t)
    (hdrop : args.drop n = tok :: nxt :: rest)
    (hhead : tok.data.head? = some '-')
    (hmap : option_map isdir tok = none) :
    process isdir s args = (.exn (.keyError tok), t) := by
  rw [process_scan isdir s args last hh hH hlen hlast hfreq]
  rw [scan_of_scanSteps isdir n (frequency s last).2 t args hsteps, hdrop]
  exact scan_keyError isdir t tok nxt rest hhead hmap

/-- C6 witness: the hypotheses of `c6_unknown_flag_raises` hold at a
concrete input. -/
theorem c6_unknown_flag_raises_witness :
    process noDirs initUI ["prog", "-x", "y", "95.5"] =
      (.exn (.keyError "-x"), (frequency initUI "95.5").2) :=
  c6_unknown_flag_raises noDirs initUI (frequency initUI "95.5").2
    ["prog", "-x", "y", "95.5"] 1 "95.5" "-x" "y" ["95.5"]
    (by decide) (by decide) (by decide) (by decide) (by decide) (by decide)
    (by decide) (by decide) rfl

/-- C10 counterexample: `["prog", "-c", "9", "", "95.5"]` contains an
empty token, has no help flag, has more than one token and a valid
last-token frequency, yet `process` returns the exit code HALT (the
earlier `-c` failure wins) instead of raising `IndexError`. -/
theorem c10_counterexample_earlier_failure :
    (process noDirs initUI ["prog", "-c", "9", "", "95.5"]).1 ≠
      .exn .indexError ∧
    process noDirs initUI ["prog", "-c", "9", "", "95.5"] =
      (.code HALT,
        { initUI with
          nrsc5 := { initNRSC5 with freq := some (.num 955 1) },
          output := ["Error: Invalid channel (0 - 3)"] }) := by
  refine ⟨by decide, by decide⟩

/-- C10 amended: when the flag scan actually reaches an empty token —
no earlier token having ended the scan — `process` raises `IndexError`
on the first-character access of the token instead of returning an exit
code. -/
theorem c10_empty_token_raises (isdir : String → Bool)
    (s t : UserInterface) (args : List String) (n : Nat)
    (last : String) (rest : List String)
    (hh : args.contains "-h" = false) (hH : args.contains "--help" = false)
    (hlen : ¬ args.length = 1) (hlast : args.getLast? = some last)
    (hfreq : (frequency s last).1 = true)
    (hsteps : scanSteps isdir (frequency s last).2 args n = some t)
    (hdrop : args.drop n = "" :: rest) :
    process isdir s args = (.exn .indexError, t) := by
  rw [process_scan isdir s args last hh hH hlen hlast hfreq]
  rw [scan_of_scanSteps isdir n (frequency s last).2 t args hsteps, hdrop]
  rfl

/-- C10 witness: the hypotheses of `c10_empty_token_raises` hold at a
concrete input. -/
theorem c10_empty_token_raises_witness :
    process noDirs initUI ["prog", "", "95.5"] =
      (.exn .indexError, (frequency initUI "95.5").2) :=
  c10_empty_token_raises noDirs initUI (frequency initUI "95.5").2
    ["prog", "", "95.5"] 1 "95.5" ["95.5"]
    (by decide) (by decide) (by decide) (by decide) (by decide) (by decide)
    (by decide)

end HDFM
